import Mathlib

/-!
Shallow embedding of the indicator library and the recommendation
classifier of `src/main.js`.

JavaScript floating-point numbers are modelled as exact rationals (`ℚ`).
The JS value `NaN` — which the pipeline can produce only in
`calculateRSI`, when both Wilder averages are zero — is modelled by
`Option ℚ`, with `none` standing for `NaN`.  Array indexing `a[i]` is
modelled by `List.getD · 0`; every index the embedded code actually
reads is in bounds, so the default value is never observable.
-/

/-- `calculateSMA` (main.js lines 23-31): for `0 ≤ i < data.length - period + 1`
push the mean of `data.slice(i, i + period)`. -/
def calculateSMA (data : List ℚ) (period : ℕ) : List ℚ :=
  (List.range (data.length + 1 - period)).map
    (fun i => ((data.drop i).take period).sum / (period : ℚ))

/-- `calculateEMA` (main.js lines 84-95): if the series is shorter than
`period` return `[]`; otherwise seed `ema[period-1]` with the mean of the
first `period` prices and apply
`ema[i] = (data[i] - ema[i-1]) * (2/(period+1)) + ema[i-1]` for the
remaining prices; the function returns `ema.slice(period - 1)`, i.e. the
seed followed by the recurrence values — a left scan. -/
def calculateEMA (data : List ℚ) (period : ℕ) : List ℚ :=
  if data.length < period then []
  else
    List.scanl (fun e x => (x - e) * (2 / ((period : ℚ) + 1)) + e)
      ((data.take period).sum / (period : ℚ)) (data.drop period)

/-- One emitted RSI value (main.js lines 72-73): `rs = avgGain / avgLoss;
rsi.push(100 - (100 / (1 + rs)))`.  Under JS float semantics with
`avgLoss = 0`: if `avgGain ≠ 0` then `rs = ±Infinity` and the pushed value
is exactly `100`; if moreover `avgGain = 0` then `rs = NaN` and the pushed
value is `NaN` (here `none`).  Both accumulators are Wilder averages of
non-negative quantities, so in every reachable state the finite branch has
`1 + rs ≥ 1` and never divides by zero. -/
def rsiValue (avgGain avgLoss : ℚ) : Option ℚ :=
  if avgLoss ≠ 0 then some (100 - 100 / (1 + avgGain / avgLoss))
  else if avgGain ≠ 0 then some 100
  else none

/-- The emission loop of `calculateRSI` (main.js lines 58-74): Wilder
smoothing `avg = (avg * (period - 1) + current) / period` over the
remaining price changes, pushing one value per change. -/
def rsiLoop (period : ℕ) (avgGain avgLoss : ℚ) : List ℚ → List (Option ℚ)
  | [] => []
  | c :: cs =>
    let g := (avgGain * ((period : ℚ) - 1) + (if 0 < c then c else 0)) / (period : ℚ)
    let l := (avgLoss * ((period : ℚ) - 1) + (if 0 < c then 0 else -c)) / (period : ℚ)
    rsiValue g l :: rsiLoop period g l cs

/-- The list of price changes `data[i] - data[i-1]` for `i = 1 … length-1`. -/
def priceChanges (data : List ℚ) : List ℚ :=
  List.zipWith (fun a b => a - b) data.tail data

/-- `calculateRSI` (main.js lines 39-76).  The early-return guard is
`data.length < period` (not `period + 1`).  The seeding loop averages the
gains and the losses among the first `period` changes; the emission loop
starts at `i = period + 1`, i.e. at change index `period`.  (When
`data.length = period` the JS seeding loop reads one element past the end
of the array and the averages become `NaN`, but the emission loop is then
empty, so the returned array is `[]` either way; averaging the existing
changes is observationally identical.) -/
def calculateRSI (data : List ℚ) (period : ℕ) : List (Option ℚ) :=
  if data.length < period then []
  else
    rsiLoop period
      ((((priceChanges data).take period).map (fun c => if 0 < c then c else 0)).sum / (period : ℚ))
      ((((priceChanges data).take period).map (fun c => if 0 < c then 0 else -c)).sum / (period : ℚ))
      ((priceChanges data).drop period)

/-- The record returned by `calculateMACD`. -/
structure MACDResult where
  macdLine : List ℚ
  signalLine : List ℚ
  histogram : List ℚ

/-- `calculateMACD` (main.js lines 105-125): trailing-aligned difference of
the fast and slow EMA, the signal line as EMA of the MACD line, and the
trailing-aligned difference of those two as histogram. -/
def calculateMACD (data : List ℚ) (fastPeriod slowPeriod signalPeriod : ℕ) : MACDResult :=
  let fastEMA := calculateEMA data fastPeriod
  let slowEMA := calculateEMA data slowPeriod
  let minLength := min fastEMA.length slowEMA.length
  let macdLine := (List.range minLength).map (fun i =>
    fastEMA.getD (fastEMA.length - minLength + i) 0
      - slowEMA.getD (slowEMA.length - minLength + i) 0)
  let signalLine := calculateEMA macdLine signalPeriod
  let minHistogramLength := min macdLine.length signalLine.length
  let histogram := (List.range minHistogramLength).map (fun i =>
    macdLine.getD (macdLine.length - minHistogramLength + i) 0
      - signalLine.getD (signalLine.length - minHistogramLength + i) 0)
  ⟨macdLine, signalLine, histogram⟩

/-- JS `x.toFixed(2)` followed by `parseFloat`: the nearest multiple of
`1/100`, ties resolved toward the larger value (ECMA-262
`Number.prototype.toFixed` picks the larger candidate `n` when two are
equally near). -/
def toFixed2 (q : ℚ) : ℚ := (⌊q * 100 + 1 / 2⌋ : ℚ) / 100

/-- The decimal string produced by `x.toFixed(2)`: sign, integer part, a
dot and two fractional digits. -/
def fixed2Str (q : ℚ) : String :=
  let n : ℤ := ⌊q * 100 + 1 / 2⌋
  (if n < 0 then "-" else "")
    ++ toString (n.natAbs / 100) ++ "."
    ++ (if n.natAbs % 100 < 10 then "0" else "") ++ toString (n.natAbs % 100)

/-- main.js lines 510 and 516-518: the last element of a derived series,
rounded by `toFixed(2)` (and later read back with `parseFloat`), or the
`N/A` marker (`none`) when the series is empty.  In the rational model
every such value is finite, so the JS `isFinite` test succeeds exactly
when the series is non-empty. -/
def latestOf (l : List ℚ) : Option ℚ := l.getLast?.map toFixed2

/-- main.js line 513: as `latestOf`, except that an RSI series may end in
`NaN` (`none` in the model), which fails the `isFinite` test and also
yields `N/A`. -/
def latestRSIOf (l : List (Option ℚ)) : Option ℚ :=
  match l.getLast? with
  | some (some q) => some (toFixed2 q)
  | _ => none

/-- main.js line 493: `prices[prices.length - 1]`. -/
def latestPriceOf (prices : List ℚ) : ℚ := prices.getD (prices.length - 1) 0

/-- main.js line 532: the golden-cross test.  The current values are the
`toFixed(2)`-rounded ones read back from strings; the previous values are
read unrounded from the raw arrays. -/
abbrev macdBuySignal (macdLine signalLine : List ℚ) (macdVal signalVal : ℚ) : Prop :=
  signalVal < macdVal ∧ 1 < macdLine.length ∧ 1 < signalLine.length ∧
    macdLine.getD (macdLine.length - 2) 0 ≤ signalLine.getD (signalLine.length - 2) 0

/-- main.js line 534: the dead-cross test, mirror image of the golden-cross
test. -/
abbrev macdSellSignal (macdLine signalLine : List ℚ) (macdVal signalVal : ℚ) : Prop :=
  macdVal < signalVal ∧ 1 < macdLine.length ∧ 1 < signalLine.length ∧
    signalLine.getD (signalLine.length - 2) 0 ≤ macdLine.getD (macdLine.length - 2) 0

/-- The pure recommendation pipeline of `fetchAndRecommendStocks`
(main.js lines 493-566): from the validated ascending price series to the
`(recommendation, reason)` pair.  Fewer than 30 prices keep the initial
`'데이터 부족'` record; otherwise the latest indicator values are extracted
(`N/A` when a series is empty or its last value non-finite) and the rule
chain of lines 524-565 runs. -/
def recommend (prices : List ℚ) : String × String :=
  if prices.length < 30 then
    ("데이터 부족", "지표 계산에 필요한 데이터 부족 (" ++ toString prices.length ++ "개)")
  else
    match latestRSIOf (calculateRSI prices 14),
        latestOf (calculateMACD prices 12 26 9).macdLine,
        latestOf (calculateMACD prices 12 26 9).signalLine with
    | some rsiVal, some macdVal, some signalVal =>
      if rsiVal < 30 ∧ macdBuySignal (calculateMACD prices 12 26 9).macdLine
          (calculateMACD prices 12 26 9).signalLine macdVal signalVal then
        ("강력 매수", "RSI(" ++ fixed2Str rsiVal ++ ") 과매도 구간 + MACD 골든 크로스 발생.")
      else if 70 < rsiVal ∧ macdSellSignal (calculateMACD prices 12 26 9).macdLine
          (calculateMACD prices 12 26 9).signalLine macdVal signalVal then
        ("강력 매도", "RSI(" ++ fixed2Str rsiVal ++ ") 과매수 구간 + MACD 데드 크로스 발생.")
      else if macdBuySignal (calculateMACD prices 12 26 9).macdLine
          (calculateMACD prices 12 26 9).signalLine macdVal signalVal then
        ("매수", "MACD 골든 크로스 발생.")
      else if macdSellSignal (calculateMACD prices 12 26 9).macdLine
          (calculateMACD prices 12 26 9).signalLine macdVal signalVal then
        ("매도", "MACD 데드 크로스 발생.")
      else
        match latestOf (calculateSMA prices 20) with
        | some smaVal =>
          if smaVal < latestPriceOf prices then
            ("유지 (상승 추세)", "현재 가격($" ++ fixed2Str (latestPriceOf prices)
              ++ ")이 SMA(20)($" ++ fixed2Str smaVal ++ ") 위에 있습니다.")
          else if latestPriceOf prices < smaVal then
            ("유지 (하락 추세)", "현재 가격($" ++ fixed2Str (latestPriceOf prices)
              ++ ")이 SMA(20)($" ++ fixed2Str smaVal ++ ") 아래에 있습니다.")
          else ("관망", "특별한 신호 없음.")
        | none => ("관망", "특별한 신호 없음.")
    | _, _, _ => ("관망", "지표 계산을 위한 충분한 데이터 부족 또는 N/A 값.")

/-- 35 prices: a steady decline of 0.5 per day from 100 followed by a small
final uptick of 0.0001, giving an oversold RSI together with a visible
(post-rounding) MACD golden cross. -/
def goldenCrossPrices : List ℚ :=
  (List.range 34).map (fun (i : ℕ) => (100 : ℚ) - (i : ℚ) / 2) ++ [835001 / 10000]

/-- 35 prices: the same decline, but the final step falls by 0.499999
instead of 0.5 — the MACD line crosses above the signal line by less than
a hundredth, invisible after `toFixed(2)` rounding. -/
def hiddenCrossPrices : List ℚ :=
  (List.range 34).map (fun (i : ℕ) => (100 : ℚ) - (i : ℚ) / 2) ++ [83000001 / 1000000]

/-- 35 prices: a shallow linear uptrend of 0.0004 per day ending at 9.9993.
The 20-day SMA is 9.9955 — strictly below the latest price, but rounded up
to 10.00 by `toFixed(2)`. -/
def shallowUptrendPrices : List ℚ :=
  (List.range 35).map (fun (i : ℕ) => (99857 : ℚ) / 10000 + (i : ℚ) * 4 / 10000)

/-- 35 prices: a steep linear uptrend 100, 101, …, 134. -/
def steepUptrendPrices : List ℚ :=
  (List.range 35).map (fun (i : ℕ) => (100 : ℚ) + (i : ℚ))

/-! ### Basic length facts -/

theorem rsiLoop_length (period : ℕ) (g l : ℚ) (cs : List ℚ) :
    (rsiLoop period g l cs).length = cs.length := by
  induction cs generalizing g l with
  | nil => rfl
  | cons c cs ih => simp [rsiLoop, ih]

theorem priceChanges_length (data : List ℚ) :
    (priceChanges data).length = data.length - 1 := by
  simp [priceChanges]

theorem calculateRSI_length (data : List ℚ) (period : ℕ) :
    (calculateRSI data period).length =
      if data.length < period then 0 else data.length - 1 - period := by
  unfold calculateRSI
  split
  · rfl
  · rw [rsiLoop_length, List.length_drop, priceChanges_length]

theorem calculateSMA_length (data : List ℚ) (period : ℕ) :
    (calculateSMA data period).length = data.length + 1 - period := by
  simp [calculateSMA]

theorem getD_eq_get (l : List ℚ) (i : ℕ) (h : i < l.length) :
    l.getD i 0 = l.get ⟨i, h⟩ := by
  simp [List.getD_eq_getElem?_getD, List.getElem?_eq_getElem h]

/-! ### C9 — length of the RSI output -/

/-- C9: for every price series of length `N` and period `p ≥ 1`,
`calculateRSI` returns exactly `max 0 (N - p - 1)` values: the early
return fires for `N < p`, and otherwise the emission loop runs once per
change index `p … N-2`. -/
theorem rsi_output_length (data : List ℚ) (period : ℕ) (hp : 1 ≤ period) :
    ((calculateRSI data period).length : ℤ) =
      max 0 ((data.length : ℤ) - period - 1) := by
  rw [calculateRSI_length]
  split <;> omega

theorem rsi_output_length_witness :
    ((calculateRSI [1, 2, 1, 2] 1).length : ℤ) = max 0 ((4 : ℤ) - 1 - 1) := by
  have h := rsi_output_length [1, 2, 1, 2] 1 (by norm_num)
  simpa using h

/-! ### C7 — RSI needs at least `period + 1` prices -/

/-- C7: with fewer than `period + 1` prices `calculateRSI` returns the
empty sequence (and, being a total function, raises nothing); a non-empty
result forces `period + 1 ≤ prices.length`. -/
theorem rsi_short_input (data : List ℚ) (period : ℕ) (hp : 1 ≤ period) :
    (data.length < period + 1 → calculateRSI data period = []) ∧
    (calculateRSI data period ≠ [] → period + 1 ≤ data.length) := by
  have hl := calculateRSI_length data period
  constructor
  · intro h
    apply List.length_eq_zero.mp
    rw [hl]
    split <;> omega
  · intro h
    rcases Nat.lt_or_ge data.length (period + 1) with hc | hc
    · exact absurd (List.length_eq_zero.mp (by rw [hl]; split <;> omega)) h
    · exact hc

theorem rsi_short_input_witness : calculateRSI [1, 2] 2 = [] :=
  (rsi_short_input [1, 2] 2 (by norm_num)).1 (by norm_num)

/-! ### C6 — SMA windows -/

theorem calculateSMA_window (data : List ℚ) (period : ℕ) (hp : 1 ≤ period) :
    ∀ i, ∀ h : i < (calculateSMA data period).length,
      ((data.drop i).take period).length = period ∧
      (calculateSMA data period).get ⟨i, h⟩ =
        ((data.drop i).take period).sum / (period : ℚ) := by
  intro i h
  have hi : i < data.length + 1 - period := by
    rw [calculateSMA_length] at h; exact h
  constructor
  · simp only [List.length_take, List.length_drop]
    omega
  · simp [calculateSMA, List.get_eq_getElem]

/-- C6: `calculateSMA` emits `max 0 (N - p + 1)` values, the `i`-th being
the arithmetic mean of the window of `p` consecutive prices starting at
index `i`; a series shorter than the period yields the empty sequence. -/
theorem sma_window_means (data : List ℚ) (period : ℕ) (hp : 1 ≤ period) :
    ((calculateSMA data period).length : ℤ) =
      max 0 ((data.length : ℤ) - period + 1) ∧
    (data.length < period → calculateSMA data period = []) ∧
    ∀ i, ∀ h : i < (calculateSMA data period).length,
      ((data.drop i).take period).length = period ∧
      (calculateSMA data period).get ⟨i, h⟩ =
        ((data.drop i).take period).sum / (period : ℚ) := by
  refine ⟨?_, ?_, calculateSMA_window data period hp⟩
  · rw [calculateSMA_length]; omega
  · intro h
    apply List.length_eq_zero.mp
    rw [calculateSMA_length]; omega

theorem sma_window_means_witness :
    calculateSMA [1, 2, 3, 4, 5] 3 = [2, 3, 4] ∧
    ((calculateSMA [1, 2, 3, 4, 5] 3).length : ℤ) = max 0 ((5 : ℤ) - 3 + 1) := by
  constructor
  · norm_num [calculateSMA, List.range_succ]
  · have h := (sma_window_means [1, 2, 3, 4, 5] 3 (by norm_num)).1
    simpa using h

/-! ### C5 — EMA seed and recurrence -/

/-- C5: `calculateEMA` returns `[]` when the series is shorter than the
period, and otherwise `N - p + 1` values: the head is the simple mean of
the first `p` prices and each later value follows
`ema[i] = (price[i] - ema[i-1]) * (2/(p+1)) + ema[i-1]`. -/
theorem ema_seed_and_recurrence (data : List ℚ) (period : ℕ) (hp : 1 ≤ period) :
    (data.length < period → calculateEMA data period = []) ∧
    (period ≤ data.length →
      (calculateEMA data period).length = data.length - period + 1 ∧
      (calculateEMA data period).head? =
        some ((data.take period).sum / (period : ℚ)) ∧
      ∀ j, j + 1 < (calculateEMA data period).length →
        (calculateEMA data period).getD (j + 1) 0 =
          (data.getD (period + j) 0 - (calculateEMA data period).getD j 0)
            * (2 / ((period : ℚ) + 1))
          + (calculateEMA data period).getD j 0) := by
  constructor
  · intro h
    unfold calculateEMA
    rw [if_pos h]
  · intro hle
    have hnot : ¬ data.length < period := not_lt.mpr hle
    have hE : calculateEMA data period =
        List.scanl (fun e x => (x - e) * (2 / ((period : ℚ) + 1)) + e)
          ((data.take period).sum / (period : ℚ)) (data.drop period) := by
      unfold calculateEMA
      rw [if_neg hnot]
    refine ⟨?_, ?_, ?_⟩
    · rw [hE, List.length_scanl, List.length_drop]
    · rw [hE]
      rcases data.drop period with _ | ⟨a, l⟩ <;> rfl
    · intro j h
      rw [hE] at h ⊢
      have hj : j < (List.scanl (fun e x => (x - e) * (2 / ((period : ℚ) + 1)) + e)
          ((data.take period).sum / (period : ℚ)) (data.drop period)).length :=
        Nat.lt_of_succ_lt h
      have hdat : period + j < data.length := by
        rw [List.length_scanl, List.length_drop] at h
        omega
      rw [getD_eq_get _ _ h, getD_eq_get _ _ hj, getD_eq_get data _ hdat]
      simp only [List.get_eq_getElem]
      rw [List.getElem_succ_scanl h]
      simp

theorem ema_seed_and_recurrence_witness :
    calculateEMA [1, 2, 3, 4, 5] 3 = [2, 3, 4] ∧
    (calculateEMA [1, 2, 3, 4, 5] 3).head? = some 2 := by
  constructor
  · norm_num [calculateEMA, List.scanl]
  · have h := ((ema_seed_and_recurrence [1, 2, 3, 4, 5] 3 (by norm_num)).2
      (by norm_num)).2.1
    rw [h]
    norm_num

/-! ### C1 — MACD trailing alignment -/

theorem rangeMap_sub_eq_zipWith (xs ys : List ℚ) :
    (List.range (min xs.length ys.length)).map (fun i =>
      xs.getD (xs.length - min xs.length ys.length + i) 0
        - ys.getD (ys.length - min xs.length ys.length + i) 0) =
    List.zipWith (fun a b => a - b)
      (xs.drop (xs.length - min xs.length ys.length))
      (ys.drop (ys.length - min xs.length ys.length)) := by
  apply List.ext_getElem
  · simp only [List.length_map, List.length_range, List.length_zipWith, List.length_drop]
    omega
  · intro i h1 h2
    simp only [List.length_map, List.length_range] at h1
    have hx : xs.length - min xs.length ys.length + i < xs.length := by omega
    have hy : ys.length - min xs.length ys.length + i < ys.length := by omega
    simp only [List.getElem_map, List.getElem_range, List.getElem_zipWith,
      List.getElem_drop]
    rw [getD_eq_get _ _ hx, getD_eq_get _ _ hy]
    simp [List.get_eq_getElem]

/-- C1: the MACD line is the element-wise difference `fast - slow` over
the trailing-aligned overlap of the two EMA sequences (the longer head
truncated), with length `min (len fastEMA) (len slowEMA)`; the signal
line is the EMA of the MACD line with the signal period; the histogram is
the trailing-aligned element-wise difference `macdLine - signalLine` with
length `min (len macdLine) (len signalLine)`. -/
theorem macd_trailing_aligned (data : List ℚ)
    (fastPeriod slowPeriod signalPeriod : ℕ) :
    (calculateMACD data fastPeriod slowPeriod signalPeriod).macdLine =
      List.zipWith (fun a b => a - b)
        ((calculateEMA data fastPeriod).drop
          ((calculateEMA data fastPeriod).length -
            min (calculateEMA data fastPeriod).length
              (calculateEMA data slowPeriod).length))
        ((calculateEMA data slowPeriod).drop
          ((calculateEMA data slowPeriod).length -
            min (calculateEMA data fastPeriod).length
              (calculateEMA data slowPeriod).length)) ∧
    (calculateMACD data fastPeriod slowPeriod signalPeriod).macdLine.length =
      min (calculateEMA data fastPeriod).length
        (calculateEMA data slowPeriod).length ∧
    (calculateMACD data fastPeriod slowPeriod signalPeriod).signalLine =
      calculateEMA (calculateMACD data fastPeriod slowPeriod signalPeriod).macdLine
        signalPeriod ∧
    (calculateMACD data fastPeriod slowPeriod signalPeriod).histogram =
      List.zipWith (fun a b => a - b)
        ((calculateMACD data fastPeriod slowPeriod signalPeriod).macdLine.drop
          ((calculateMACD data fastPeriod slowPeriod signalPeriod).macdLine.length -
            min (calculateMACD data fastPeriod slowPeriod signalPeriod).macdLine.length
              (calculateMACD data fastPeriod slowPeriod signalPeriod).signalLine.length))
        ((calculateMACD data fastPeriod slowPeriod signalPeriod).signalLine.drop
          ((calculateMACD data fastPeriod slowPeriod signalPeriod).signalLine.length -
            min (calculateMACD data fastPeriod slowPeriod signalPeriod).macdLine.length
              (calculateMACD data fastPeriod slowPeriod signalPeriod).signalLine.length)) ∧
    (calculateMACD data fastPeriod slowPeriod signalPeriod).histogram.length =
      min (calculateMACD data fastPeriod slowPeriod signalPeriod).macdLine.length
        (calculateMACD data fastPeriod slowPeriod signalPeriod).signalLine.length := by
  refine ⟨?_, ?_, rfl, ?_, ?_⟩
  · exact rangeMap_sub_eq_zipWith (calculateEMA data fastPeriod)
      (calculateEMA data slowPeriod)
  · simp [calculateMACD]
  · exact rangeMap_sub_eq_zipWith
      (calculateMACD data fastPeriod slowPeriod signalPeriod).macdLine
      (calculateMACD data fastPeriod slowPeriod signalPeriod).signalLine
  · simp [calculateMACD]

/-! ### C10 — SMA values lie between the window extremes -/

/-- C10: each SMA value lies between the minimum and the maximum of the
`p` prices of its window, and for strictly positive prices every SMA
value is strictly positive. -/
theorem sma_bounded_by_window (data : List ℚ) (period : ℕ) (hp : 1 ≤ period) :
    (∀ i, ∀ h : i < (calculateSMA data period).length, ∀ lo hi : ℚ,
      lo ∈ (data.drop i).take period → hi ∈ (data.drop i).take period →
      (∀ x ∈ (data.drop i).take period, lo ≤ x) →
      (∀ x ∈ (data.drop i).take period, x ≤ hi) →
      lo ≤ (calculateSMA data period).get ⟨i, h⟩ ∧
        (calculateSMA data period).get ⟨i, h⟩ ≤ hi) ∧
    ((∀ x ∈ data, 0 < x) → ∀ v ∈ calculateSMA data period, 0 < v) := by
  have hp0 : (0 : ℚ) < (period : ℚ) := by
    have : 0 < period := hp
    exact_mod_cast this
  constructor
  · intro i h lo hi _ _ hlo hhi
    obtain ⟨hwl, hval⟩ := calculateSMA_window data period hp i h
    rw [hval]
    constructor
    · rw [le_div_iff hp0]
      have := List.card_nsmul_le_sum ((data.drop i).take period) lo hlo
      rw [nsmul_eq_mul, hwl] at this
      linarith
    · rw [div_le_iff hp0]
      have := List.sum_le_card_nsmul ((data.drop i).take period) hi hhi
      rw [nsmul_eq_mul, hwl] at this
      linarith
  · intro hpos v hv
    obtain ⟨⟨i, h⟩, rfl⟩ := List.mem_iff_get.mp hv
    obtain ⟨hwl, hval⟩ := calculateSMA_window data period hp i h
    rw [hval]
    apply div_pos _ hp0
    apply List.sum_pos
    · intro x hx
      exact hpos x (List.mem_of_mem_drop (List.mem_of_mem_take hx))
    · apply List.length_pos.mp
      omega

theorem sma_bounded_by_window_witness :
    (1 ≤ (calculateSMA [1, 2, 3, 4, 5] 3).get
        ⟨0, by rw [calculateSMA_length]; norm_num⟩ ∧
      (calculateSMA [1, 2, 3, 4, 5] 3).get
        ⟨0, by rw [calculateSMA_length]; norm_num⟩ ≤ 3) ∧
    (0 : ℚ) < 2 := by
  have h := sma_bounded_by_window [1, 2, 3, 4, 5] 3 (by norm_num)
  refine ⟨h.1 0 (by rw [calculateSMA_length]; norm_num) 1 3 (by norm_num)
    (by norm_num) (by norm_num) (by norm_num), ?_⟩
  exact h.2 (by norm_num) 2 (by norm_num [calculateSMA, List.range_succ])

/-! ### C2 — range of emitted RSI values -/

theorem rsiValue_bounds (g l : ℚ) (hg : 0 ≤ g) (hl : 0 ≤ l) (q : ℚ)
    (hq : rsiValue g l = some q) : 0 ≤ q ∧ q ≤ 100 := by
  unfold rsiValue at hq
  split_ifs at hq with h1 h2
  · have hl0 : 0 < l := lt_of_le_of_ne hl (Ne.symm h1)
    have hrs : 0 ≤ g / l := div_nonneg hg hl0.le
    have hpos : 0 < 100 / (1 + g / l) := div_pos (by norm_num) (by linarith)
    have hle : 100 / (1 + g / l) ≤ 100 := div_le_self (by norm_num) (by linarith)
    obtain rfl : 100 - 100 / (1 + g / l) = q := Option.some_injective _ hq
    constructor <;> linarith
  · obtain rfl : (100 : ℚ) = q := Option.some_injective _ hq
    norm_num

theorem rsiLoop_value_bounds (period : ℕ) (cs : List ℚ) :
    ∀ g l : ℚ, 0 ≤ g → 0 ≤ l →
      ∀ v ∈ rsiLoop period g l cs, ∀ q : ℚ, v = some q → 0 ≤ q ∧ q ≤ 100 := by
  induction cs with
  | nil =>
    intro g l _ _ v hv
    simp [rsiLoop] at hv
  | cons c cs ih =>
    intro g l hg hl v hv q hvq
    have hgain : (0 : ℚ) ≤ if 0 < c then c else 0 := by
      split
      · linarith
      · exact le_refl 0
    have hloss : (0 : ℚ) ≤ if 0 < c then 0 else -c := by
      split
      · exact le_refl 0
      · linarith [not_lt.mp (by assumption : ¬ 0 < c)]
    have hstep : ∀ a b : ℚ, 0 ≤ a → 0 ≤ b →
        0 ≤ (a * ((period : ℚ) - 1) + b) / (period : ℚ) := by
      intro a b ha hb
      rcases Nat.eq_zero_or_pos period with h0 | h1
      · rw [h0]
        norm_num
      · have h1q : (1 : ℚ) ≤ (period : ℚ) := by exact_mod_cast h1
        apply div_nonneg _ (by linarith)
        have : 0 ≤ a * ((period : ℚ) - 1) := mul_nonneg ha (by linarith)
        linarith
    simp only [rsiLoop] at hv
    rcases List.mem_cons.mp hv with h | h
    · subst h
      exact rsiValue_bounds _ _ (hstep g _ hg hgain) (hstep l _ hl hloss) q hvq
    · exact ih _ _ (hstep g _ hg hgain) (hstep l _ hl hloss) v h q hvq

/-- The amended C2: every numeric value `calculateRSI` emits lies in
`[0, 100]`; when the Wilder average loss is zero but the average gain is
positive the emitted value is exactly `100`; when both averages are zero
the emitted value is `NaN` (`none`), not a number. -/
theorem rsi_values_in_range (data : List ℚ) (period : ℕ) :
    (∀ v ∈ calculateRSI data period, ∀ q : ℚ, v = some q → 0 ≤ q ∧ q ≤ 100) ∧
    (∀ g : ℚ, 0 < g → rsiValue g 0 = some 100) ∧
    rsiValue 0 0 = none := by
  refine ⟨?_, ?_, ?_⟩
  · intro v hv q hq
    unfold calculateRSI at hv
    split at hv
    · simp at hv
    · have hsum : ∀ f : ℚ → ℚ, (∀ c : ℚ, 0 ≤ f c) →
          0 ≤ (((priceChanges data).take period).map f).sum / (period : ℚ) := by
        intro f hf
        apply div_nonneg _ (by positivity)
        apply List.sum_nonneg
        intro x hx
        obtain ⟨c, _, rfl⟩ := List.mem_map.mp hx
        exact hf c
      refine rsiLoop_value_bounds period _ _ _ ?_ ?_ v hv q hq
      · refine hsum _ ?_
        intro c
        split
        · linarith
        · exact le_refl 0
      · refine hsum _ ?_
        intro c
        split
        · exact le_refl 0
        · linarith [not_lt.mp (by assumption : ¬ 0 < c)]
  · intro g hg
    unfold rsiValue
    rw [if_neg (by simp), if_pos (ne_of_gt hg)]
  · simp [rsiValue]

theorem rsi_values_in_range_witness :
    (0 ≤ (0 : ℚ) ∧ (0 : ℚ) ≤ 100) ∧ rsiValue 1 0 = some 100 := by
  have h := rsi_values_in_range [1, 2, 1] 1
  refine ⟨h.1 (some 0) ?_ 0 rfl, h.2.1 1 (by norm_num)⟩
  have : calculateRSI [1, 2, 1] 1 = [some 0] := by
    norm_num [calculateRSI, rsiLoop, rsiValue, priceChanges]
  rw [this]
  simp

/-- The counterexample to C2 as stated: for the constant series
`[1, 1, 1, 1]` with period 1 every change in the lookback is zero (hence
non-negative and the Wilder average loss is zero), yet the code emits
`NaN` (`none`), not `100` and not a value in `[0, 100]`. -/
theorem rsi_nan_counterexample :
    calculateRSI [1, 1, 1, 1] 1 = [none, none] ∧
    none ∈ calculateRSI [1, 1, 1, 1] 1 := by
  have h : calculateRSI [1, 1, 1, 1] 1 = [none, none] := by
    norm_num [calculateRSI, rsiLoop, rsiValue, priceChanges]
  refine ⟨h, ?_⟩
  rw [h]
  simp

/-! ### C4 — unavailable indicators -/

/-- The amended C4: with fewer than 30 prices the record keeps the initial
insufficient-data label, whose rationale embeds the number of available
data points; with 30 or more prices but an unavailable or non-finite
RSI, MACD-line or signal-line value, the classifier short-circuits to the
neutral label with the fixed shortage rationale — not to the
insufficient-data label. -/
theorem recommend_na_amended (prices : List ℚ)
    (h : prices.length < 30 ∨
      latestRSIOf (calculateRSI prices 14) = none ∨
      latestOf (calculateMACD prices 12 26 9).macdLine = none ∨
      latestOf (calculateMACD prices 12 26 9).signalLine = none) :
    recommend prices =
      if prices.length < 30 then
        ("데이터 부족", "지표 계산에 필요한 데이터 부족 ("
          ++ toString prices.length ++ "개)")
      else ("관망", "지표 계산을 위한 충분한 데이터 부족 또는 N/A 값.") := by
  by_cases h30 : prices.length < 30
  · rw [if_pos h30]
    unfold recommend
    rw [if_pos h30]
  · rw [if_neg h30]
    unfold recommend
    rw [if_neg h30]
    rcases h with h | h | h | h
    · exact absurd h h30
    · rw [h]
    · rcases hr : latestRSIOf (calculateRSI prices 14) with _ | r
      · rfl
      · rw [h]
    · rcases hr : latestRSIOf (calculateRSI prices 14) with _ | r
      · rfl
      · rcases hm : latestOf (calculateMACD prices 12 26 9).macdLine with _ | m
        · rfl
        · rw [h]

theorem recommend_na_amended_witness :
    recommend (List.replicate 30 (10 : ℚ)) =
      ("관망", "지표 계산을 위한 충분한 데이터 부족 또는 N/A 값.") := by
  have hs : latestOf (calculateMACD (List.replicate 30 (10 : ℚ)) 12 26 9).signalLine
      = none := by
    norm_num [List.replicate, calculateMACD, calculateEMA, List.scanl, latestOf,
      List.range_succ, List.getD, List.getLast?]
  have h := recommend_na_amended (List.replicate 30 (10 : ℚ))
    (Or.inr (Or.inr (Or.inr hs)))
  rw [h, if_neg (by simp)]

/-- The counterexample to C4 as stated: thirty constant prices make the
RSI non-finite and the signal line empty, yet the resulting label is the
neutral `'관망'`, not the insufficient-data `'데이터 부족'`, and the
rationale contains no data-point count. -/
theorem insufficient_label_counterexample :
    latestOf (calculateMACD (List.replicate 30 (10 : ℚ)) 12 26 9).signalLine = none ∧
    recommend (List.replicate 30 (10 : ℚ)) =
      ("관망", "지표 계산을 위한 충분한 데이터 부족 또는 N/A 값.") ∧
    (recommend (List.replicate 30 (10 : ℚ))).1 ≠ "데이터 부족" := by
  have hr : latestRSIOf (calculateRSI (List.replicate 30 (10 : ℚ)) 14) = none := by
    norm_num [List.replicate, calculateRSI, rsiLoop, rsiValue, priceChanges,
      latestRSIOf, List.getLast?]
  have hs : latestOf (calculateMACD (List.replicate 30 (10 : ℚ)) 12 26 9).signalLine
      = none := by
    norm_num [List.replicate, calculateMACD, calculateEMA, List.scanl, latestOf,
      List.range_succ, List.getD, List.getLast?]
  have hrec : recommend (List.replicate 30 (10 : ℚ)) =
      ("관망", "지표 계산을 위한 충분한 데이터 부족 또는 N/A 값.") := by
    unfold recommend
    rw [if_neg (by simp), hr]
  exact ⟨hs, hrec, by rw [hrec]; simp⟩

/-! ### C3 — oversold plus golden cross -/

/-- The amended C3: when 30 or more prices are available and all three
indicator values are present, the strong-buy rule fires exactly on the
code's comparison: the rounded RSI below 30 together with the code's
golden-cross test — current MACD and signal values compared after
two-decimal rounding, previous values compared unrounded, both arrays
longer than one — and the resulting label is `'강력 매수'` with the
rounded RSI embedded in the rationale. -/
theorem strong_buy_amended (prices : List ℚ) (rsiVal macdVal signalVal : ℚ)
    (h30 : ¬ prices.length < 30)
    (hr : latestRSIOf (calculateRSI prices 14) = some rsiVal)
    (hm : latestOf (calculateMACD prices 12 26 9).macdLine = some macdVal)
    (hs : latestOf (calculateMACD prices 12 26 9).signalLine = some signalVal)
    (hrsi : rsiVal < 30)
    (hbuy : macdBuySignal (calculateMACD prices 12 26 9).macdLine
      (calculateMACD prices 12 26 9).signalLine macdVal signalVal) :
    recommend prices =
      ("강력 매수", "RSI(" ++ fixed2Str rsiVal
        ++ ") 과매도 구간 + MACD 골든 크로스 발생.") := by
  unfold recommend
  rw [if_neg h30]
  simp only [hr, hm, hs]
  rw [if_pos ⟨hrsi, hbuy⟩]

set_option maxRecDepth 8000 in
set_option maxHeartbeats 4000000 in
theorem strong_buy_amended_witness :
    recommend goldenCrossPrices =
      ("강력 매수", "RSI(" ++ fixed2Str 0
        ++ ") 과매도 구간 + MACD 골든 크로스 발생.") := by
  have h30 : ¬ goldenCrossPrices.length < 30 := by
    simp only [goldenCrossPrices, List.length_append, List.length_map,
      List.length_range]
    norm_num
  have hr : latestRSIOf (calculateRSI goldenCrossPrices 14) = some 0 := by
    norm_num [goldenCrossPrices, List.range_succ, calculateRSI, rsiLoop, rsiValue,
      priceChanges, latestRSIOf, toFixed2, List.getLast?]
  have hm : latestOf (calculateMACD goldenCrossPrices 12 26 9).macdLine
      = some (-173 / 50) := by
    norm_num [goldenCrossPrices, List.range_succ, calculateMACD, calculateEMA,
      List.scanl, latestOf, toFixed2, List.getLast?, List.getD]
  have hs : latestOf (calculateMACD goldenCrossPrices 12 26 9).signalLine
      = some (-349 / 100) := by
    norm_num [goldenCrossPrices, List.range_succ, calculateMACD, calculateEMA,
      List.scanl, latestOf, toFixed2, List.getLast?, List.getD]
  have hbuy : macdBuySignal (calculateMACD goldenCrossPrices 12 26 9).macdLine
      (calculateMACD goldenCrossPrices 12 26 9).signalLine (-173 / 50) (-349 / 100) := by
    norm_num [goldenCrossPrices, List.range_succ, calculateMACD, calculateEMA,
      List.scanl, List.getD, macdBuySignal]
  exact strong_buy_amended goldenCrossPrices 0 (-173 / 50) (-349 / 100)
    h30 hr hm hs (by norm_num) hbuy

set_option maxRecDepth 8000 in
set_option maxHeartbeats 16000000 in
/-- The counterexample to C3 as stated: on `hiddenCrossPrices` the raw RSI
is 0 (below 30) and the unrounded values show a golden cross — previous
MACD ≤ previous signal, current MACD > current signal — yet the code
compares the current values only after `toFixed(2)` rounding, under which
both are -3.50, so the strong-buy rule does not fire and the result is
the downtrend label instead. -/
theorem strong_buy_counterexample :
    (calculateRSI hiddenCrossPrices 14).getLast? = some (some 0) ∧
    (0 : ℚ) < 30 ∧
    (calculateMACD hiddenCrossPrices 12 26 9).macdLine.getD
        ((calculateMACD hiddenCrossPrices 12 26 9).macdLine.length - 2) 0 ≤
      (calculateMACD hiddenCrossPrices 12 26 9).signalLine.getD
        ((calculateMACD hiddenCrossPrices 12 26 9).signalLine.length - 2) 0 ∧
    (calculateMACD hiddenCrossPrices 12 26 9).signalLine.getLast?.getD 0 <
      (calculateMACD hiddenCrossPrices 12 26 9).macdLine.getLast?.getD 0 ∧
    (recommend hiddenCrossPrices).1 = "유지 (하락 추세)" ∧
    (recommend hiddenCrossPrices).1 ≠ "강력 매수" := by
  have hlabel : (recommend hiddenCrossPrices).1 = "유지 (하락 추세)" := by
    norm_num [hiddenCrossPrices, List.range_succ, recommend, calculateRSI, rsiLoop,
      rsiValue, priceChanges, latestRSIOf, latestOf, latestPriceOf, toFixed2,
      List.getLast?, calculateMACD, calculateEMA, calculateSMA, List.scanl,
      List.getD, macdBuySignal, macdSellSignal]
  refine ⟨?_, by norm_num, ?_, ?_, hlabel, by rw [hlabel]; simp⟩
  · norm_num [hiddenCrossPrices, List.range_succ, calculateRSI, rsiLoop, rsiValue,
      priceChanges, List.getLast?]
  · norm_num [hiddenCrossPrices, List.range_succ, calculateMACD, calculateEMA,
      List.scanl, List.getD]
  · norm_num [hiddenCrossPrices, List.range_succ, calculateMACD, calculateEMA,
      List.scanl, List.getD, List.getLast?]

/-! ### C8 — price versus SMA-20 -/

/-- The amended C8: when all indicator values are present and neither the
golden-cross nor the dead-cross test fires (so none of the four crossover
rules apply), the classifier compares the unrounded latest price with the
two-decimal-rounded SMA-20: price above gives the uptrend label, price
below the downtrend label, equality the neutral no-signal label. -/
theorem sma_branch_amended (prices : List ℚ) (rsiVal macdVal signalVal smaVal : ℚ)
    (h30 : ¬ prices.length < 30)
    (hr : latestRSIOf (calculateRSI prices 14) = some rsiVal)
    (hm : latestOf (calculateMACD prices 12 26 9).macdLine = some macdVal)
    (hs : latestOf (calculateMACD prices 12 26 9).signalLine = some signalVal)
    (hnb : ¬ macdBuySignal (calculateMACD prices 12 26 9).macdLine
      (calculateMACD prices 12 26 9).signalLine macdVal signalVal)
    (hns : ¬ macdSellSignal (calculateMACD prices 12 26 9).macdLine
      (calculateMACD prices 12 26 9).signalLine macdVal signalVal)
    (hsma : latestOf (calculateSMA prices 20) = some smaVal) :
    recommend prices =
      if smaVal < latestPriceOf prices then
        ("유지 (상승 추세)", "현재 가격($" ++ fixed2Str (latestPriceOf prices)
          ++ ")이 SMA(20)($" ++ fixed2Str smaVal ++ ") 위에 있습니다.")
      else if latestPriceOf prices < smaVal then
        ("유지 (하락 추세)", "현재 가격($" ++ fixed2Str (latestPriceOf prices)
          ++ ")이 SMA(20)($" ++ fixed2Str smaVal ++ ") 아래에 있습니다.")
      else ("관망", "특별한 신호 없음.") := by
  unfold recommend
  rw [if_neg h30]
  simp only [hr, hm, hs, hsma]
  rw [if_neg (fun hc => hnb hc.2), if_neg (fun hc => hns hc.2),
    if_neg hnb, if_neg hns]

set_option maxRecDepth 8000 in
set_option maxHeartbeats 16000000 in
theorem sma_branch_amended_witness :
    recommend steepUptrendPrices =
      ("유지 (상승 추세)", "현재 가격($" ++ fixed2Str (latestPriceOf steepUptrendPrices)
        ++ ")이 SMA(20)($" ++ fixed2Str (249 / 2) ++ ") 위에 있습니다.") := by
  have h30 : ¬ steepUptrendPrices.length < 30 := by
    simp only [steepUptrendPrices, List.length_map, List.length_range]
    norm_num
  have hr : latestRSIOf (calculateRSI steepUptrendPrices 14) = some 100 := by
    norm_num [steepUptrendPrices, List.range_succ, calculateRSI, rsiLoop, rsiValue,
      priceChanges, latestRSIOf, toFixed2, List.getLast?]
  have hm : latestOf (calculateMACD steepUptrendPrices 12 26 9).macdLine
      = some 7 := by
    norm_num [steepUptrendPrices, List.range_succ, calculateMACD, calculateEMA,
      List.scanl, latestOf, toFixed2, List.getLast?, List.getD]
  have hs : latestOf (calculateMACD steepUptrendPrices 12 26 9).signalLine
      = some 7 := by
    norm_num [steepUptrendPrices, List.range_succ, calculateMACD, calculateEMA,
      List.scanl, latestOf, toFixed2, List.getLast?, List.getD]
  have hnb : ¬ macdBuySignal (calculateMACD steepUptrendPrices 12 26 9).macdLine
      (calculateMACD steepUptrendPrices 12 26 9).signalLine 7 7 := by
    simp [macdBuySignal]
  have hns : ¬ macdSellSignal (calculateMACD steepUptrendPrices 12 26 9).macdLine
      (calculateMACD steepUptrendPrices 12 26 9).signalLine 7 7 := by
    simp [macdSellSignal]
  have hsma : latestOf (calculateSMA steepUptrendPrices 20) = some (249 / 2) := by
    norm_num [steepUptrendPrices, List.range_succ, calculateSMA, latestOf,
      toFixed2, List.getLast?]
  have h := sma_branch_amended steepUptrendPrices 100 7 7 (249 / 2)
    h30 hr hm hs hnb hns hsma
  rw [h]
  have hlt : (249 / 2 : ℚ) < latestPriceOf steepUptrendPrices := by
    norm_num [steepUptrendPrices, latestPriceOf, List.range_succ, List.getD]
  rw [if_pos hlt]

set_option maxRecDepth 8000 in
set_option maxHeartbeats 16000000 in
/-- The counterexample to C8 as stated: on `shallowUptrendPrices` the MACD
line and the signal line are exactly equal (no crossover in any reading)
and the latest price 9.9993 is strictly above the unrounded SMA-20 of
9.9955, yet the code compares the price with the `toFixed(2)`-rounded
SMA-20 of 10.00 and reports the downtrend label instead of the uptrend
label. -/
theorem sma_branch_counterexample :
    latestRSIOf (calculateRSI shallowUptrendPrices 14) = some 100 ∧
    latestOf (calculateMACD shallowUptrendPrices 12 26 9).macdLine = some 0 ∧
    latestOf (calculateMACD shallowUptrendPrices 12 26 9).signalLine = some 0 ∧
    (calculateMACD shallowUptrendPrices 12 26 9).macdLine.getLast?.getD 0 =
      (calculateMACD shallowUptrendPrices 12 26 9).signalLine.getLast?.getD 0 ∧
    (calculateSMA shallowUptrendPrices 20).getLast?.getD 0 <
      latestPriceOf shallowUptrendPrices ∧
    (recommend shallowUptrendPrices).1 = "유지 (하락 추세)" ∧
    (recommend shallowUptrendPrices).1 ≠ "유지 (상승 추세)" := by
  have hlabel : (recommend shallowUptrendPrices).1 = "유지 (하락 추세)" := by
    norm_num [shallowUptrendPrices, List.range_succ, recommend, calculateRSI,
      rsiLoop, rsiValue, priceChanges, latestRSIOf, latestOf, latestPriceOf,
      toFixed2, List.getLast?, calculateMACD, calculateEMA, calculateSMA,
      List.scanl, List.getD, macdBuySignal, macdSellSignal]
  refine ⟨?_, ?_, ?_, ?_, ?_, hlabel, by rw [hlabel]; simp⟩
  · norm_num [shallowUptrendPrices, List.range_succ, calculateRSI, rsiLoop,
      rsiValue, priceChanges, latestRSIOf, toFixed2, List.getLast?]
  · norm_num [shallowUptrendPrices, List.range_succ, calculateMACD, calculateEMA,
      List.scanl, latestOf, toFixed2, List.getLast?, List.getD]
  · norm_num [shallowUptrendPrices, List.range_succ, calculateMACD, calculateEMA,
      List.scanl, latestOf, toFixed2, List.getLast?, List.getD]
  · norm_num [shallowUptrendPrices, List.range_succ, calculateMACD, calculateEMA,
      List.scanl, List.getLast?, List.getD]
  · norm_num [shallowUptrendPrices, List.range_succ, calculateSMA, latestPriceOf,
      List.getLast?, List.getD]
